import Mathlib

/-!
# User settings of the Psiphon Windows client (`src/usersettings.cpp`)

A shallow embedding of the settings module: the typed getters layered over the
per-user registry, `Settings::Initialize`, the export `Settings::ToJson` and the
dialog round trip `Settings::Show`.

Conventions of the embedding
* Every function that can touch the registry takes the registry and returns the
  registry it leaves behind next to its result.
* `DWORD`, `int`, `BOOL`, `unsigned int` and `Json::UInt` are all 32 bit wide and
  the source only converts between them (no arithmetic), so a value is carried as
  the natural number of its unsigned reading.
* Narrow, wide and UTF-8 strings are all carried as `String`.
* The mutex `g_registryMutex` only serialises single accesses; the embedding is
  sequential.
-/

namespace Psiphon

/-! ## The backing store -/

/-- Modelled from the spec: the persistent key/value store behind
`ReadRegistryDwordValue`, `WriteRegistryDwordValue`, `ReadRegistryStringValue`
and `WriteRegistryStringValue` (declared in `utilities.h`, not part of the
sources at hand). The spec describes it as a get/set API keyed by string name and
typed as integer or string: `ReadInteger(key) -> (value, found)`,
`WriteInteger(key, value)`, `ReadText(key) -> (value, found)`,
`WriteText(key, value)`. A store state is what each typed read finds under each
name. -/
structure Registry where
  /-- Integer values, by name; `none` when the read reports "not found". -/
  dwords : String → Option Nat
  /-- Text values, by name; `none` when the read reports "not found". -/
  strings : String → Option String

/-- Modelled from the spec: `ReadInteger(key) -> (value, found)`. -/
def ReadRegistryDwordValue (name : String) (reg : Registry) : Option Nat :=
  reg.dwords name

/-- Modelled from the spec: `WriteInteger(key, value)`, for a write that
succeeds: a later read of `name` finds `value`, nothing else changes. -/
def WriteRegistryDwordValue (name : String) (value : Nat) (reg : Registry) : Registry :=
  { reg with dwords := fun k => if k = name then some value else reg.dwords k }

/-- Modelled from the spec: `ReadText(key) -> (value, found)`. -/
def ReadRegistryStringValue (name : String) (reg : Registry) : Option String :=
  reg.strings name

/-- Modelled from the spec: `WriteText(key, value)`, for a write that succeeds:
a later read of `name` finds `value`, nothing else changes. -/
def WriteRegistryStringValue (name : String) (value : String) (reg : Registry) : Registry :=
  { reg with strings := fun k => if k = name then some value else reg.strings k }

/-- A registry with nothing stored. -/
def Registry.empty : Registry :=
  { dwords := fun _ => none, strings := fun _ => none }

/-! ## Constants of `usersettings.cpp` -/

def NULL_PORT : Nat := 0
def MAX_PORT : Nat := 0xFFFF

def SPLIT_TUNNEL_NAME : String := "SplitTunnel"
def SPLIT_TUNNEL_DEFAULT : Nat := 0

def TRANSPORT_NAME : String := "Transport"

def HTTP_PROXY_PORT_NAME : String := "LocalHTTPProxyPort"
def HTTP_PROXY_PORT_DEFAULT : Nat := NULL_PORT
def SOCKS_PROXY_PORT_NAME : String := "LocalSOCKSProxyPort"
def SOCKS_PROXY_PORT_DEFAULT : Nat := NULL_PORT

def EGRESS_REGION_NAME : String := "EgressRegion"
def EGRESS_REGION_DEFAULT : String := ""

def SKIP_BROWSER_NAME : String := "SkipBrowser"
def SKIP_BROWSER_DEFAULT : Nat := 0

def SKIP_PROXY_SETTINGS_NAME : String := "SkipProxySettings"
def SKIP_PROXY_SETTINGS_DEFAULT : Nat := 0

def SKIP_UPSTREAM_PROXY_NAME : String := "SSHParentProxySkip"
def SKIP_UPSTREAM_PROXY_DEFAULT : Nat := 0

def UPSTREAM_PROXY_TYPE_NAME : String := "SSHParentProxyType"
def UPSTREAM_PROXY_TYPE_DEFAULT : String := "https"

def UPSTREAM_PROXY_HOSTNAME_NAME : String := "SSHParentProxyHostname"
def UPSTREAM_PROXY_HOSTNAME_DEFAULT : String := ""

def UPSTREAM_PROXY_PORT_NAME : String := "SSHParentProxyPort"
def UPSTREAM_PROXY_PORT_DEFAULT : Nat := NULL_PORT

/-- The two transport protocol names. `TRANSPORT_DEFAULT` and `TRANSPORT_VPN`
expand to `CORE_TRANSPORT_PROTOCOL_NAME` and `VPN_TRANSPORT_PROTOCOL_NAME`, which
are defined in `coretransport.h` and `vpntransport.h`; they are parameters
here. -/
structure TransportNames where
  CORE_TRANSPORT_PROTOCOL_NAME : String
  VPN_TRANSPORT_PROTOCOL_NAME : String

def TRANSPORT_DEFAULT (t : TransportNames) : String := t.CORE_TRANSPORT_PROTOCOL_NAME
def TRANSPORT_VPN (t : TransportNames) : String := t.VPN_TRANSPORT_PROTOCOL_NAME

/-! ## Reading a setting -/

/-- The source function `GetSettingDword(settingName, defaultValue, writeDefault = false)`. -/
def GetSettingDword (settingName : String) (defaultValue : Nat) (writeDefault : Bool)
    (reg : Registry) : Nat × Registry :=
  match ReadRegistryDwordValue settingName reg with
  | some value => (value, reg)
  | none =>
    if writeDefault then
      (defaultValue, WriteRegistryDwordValue settingName defaultValue reg)
    else
      (defaultValue, reg)

/-- The source function `GetSettingString(settingName, defaultValue,
writeDefault = false)`; the `string` and the `wstring` overload have the same
body. -/
def GetSettingString (settingName : String) (defaultValue : String) (writeDefault : Bool)
    (reg : Registry) : String × Registry :=
  match ReadRegistryStringValue settingName reg with
  | some value => (value, reg)
  | none =>
    if writeDefault then
      (defaultValue, WriteRegistryStringValue settingName defaultValue reg)
    else
      (defaultValue, reg)

namespace Settings

/-- The source function `Settings::Initialize`. -/
def Initialize (reg : Registry) : Registry :=
  let reg := (GetSettingDword SKIP_BROWSER_NAME SKIP_BROWSER_DEFAULT true reg).2
  (GetSettingDword SKIP_PROXY_SETTINGS_NAME SKIP_PROXY_SETTINGS_DEFAULT true reg).2

/-- The source function `Settings::SplitTunnel`: not yet supported, always `false`. -/
def SplitTunnel (reg : Registry) : Bool × Registry :=
  (false, reg)

/-- The source function `Settings::Transport`. -/
def Transport (t : TransportNames) (reg : Registry) : String × Registry :=
  let (transport, reg) := GetSettingString TRANSPORT_NAME (TRANSPORT_DEFAULT t) false reg
  if transport ≠ TRANSPORT_VPN t then
    (TRANSPORT_DEFAULT t, reg)
  else
    (transport, reg)

/-- The source function `Settings::LocalHttpProxyPort`. -/
def LocalHttpProxyPort (reg : Registry) : Nat × Registry :=
  let (port, reg) := GetSettingDword HTTP_PROXY_PORT_NAME HTTP_PROXY_PORT_DEFAULT false reg
  if port > MAX_PORT then
    (HTTP_PROXY_PORT_DEFAULT, reg)
  else
    (port, reg)

/-- The source function `Settings::LocalSocksProxyPort`. -/
def LocalSocksProxyPort (reg : Registry) : Nat × Registry :=
  let (port, reg) := GetSettingDword SOCKS_PROXY_PORT_NAME SOCKS_PROXY_PORT_DEFAULT false reg
  if port > MAX_PORT then
    (SOCKS_PROXY_PORT_DEFAULT, reg)
  else
    (port, reg)

/-- The source function `Settings::UpstreamProxyType`: the result of the read is
discarded; the call leaves `writeDefault` at its default `false`. -/
def UpstreamProxyType (reg : Registry) : String × Registry :=
  let (_, reg) := GetSettingString UPSTREAM_PROXY_TYPE_NAME UPSTREAM_PROXY_TYPE_DEFAULT false reg
  (UPSTREAM_PROXY_TYPE_DEFAULT, reg)

/-- The source function `Settings::UpstreamProxyHostname`. -/
def UpstreamProxyHostname (reg : Registry) : String × Registry :=
  GetSettingString UPSTREAM_PROXY_HOSTNAME_NAME UPSTREAM_PROXY_HOSTNAME_DEFAULT false reg

/-- The source function `Settings::UpstreamProxyPort`. -/
def UpstreamProxyPort (reg : Registry) : Nat × Registry :=
  let (port, reg) := GetSettingDword UPSTREAM_PROXY_PORT_NAME UPSTREAM_PROXY_PORT_DEFAULT false reg
  if port > MAX_PORT then
    (UPSTREAM_PROXY_PORT_DEFAULT, reg)
  else
    (port, reg)

/-- The source function `Settings::SkipUpstreamProxy`: `!!GetSettingDword(...)`. -/
def SkipUpstreamProxy (reg : Registry) : Bool × Registry :=
  let (value, reg) := GetSettingDword SKIP_UPSTREAM_PROXY_NAME SKIP_UPSTREAM_PROXY_DEFAULT false reg
  (decide (value ≠ 0), reg)

/-- The source function `Settings::EgressRegion`. -/
def EgressRegion (reg : Registry) : String × Registry :=
  GetSettingString EGRESS_REGION_NAME EGRESS_REGION_DEFAULT false reg

/-- The source function `Settings::SkipBrowser`. -/
def SkipBrowser (reg : Registry) : Bool × Registry :=
  let (value, reg) := GetSettingDword SKIP_BROWSER_NAME SKIP_BROWSER_DEFAULT false reg
  (decide (value ≠ 0), reg)

/-- The source function `Settings::SkipProxySettings`. -/
def SkipProxySettings (reg : Registry) : Bool × Registry :=
  let (value, reg) := GetSettingDword SKIP_PROXY_SETTINGS_NAME SKIP_PROXY_SETTINGS_DEFAULT false reg
  (decide (value ≠ 0), reg)

end Settings

/-! ## JSON values -/

/-- Modelled from the spec: the structured payload exchanged with the dialog, a
`Json::Value` of the JSON library, whose headers are not part of the sources at
hand. The spec treats the library as opaque and fixes only that the payload is
JSON-like with optional top-level members; the constructors are the value types
of the library: null, integer (`intValue` and `uintValue`, one constructor),
real, string, boolean, array and object. A real is carried as the rational
number it denotes. -/
inductive JsonValue where
  | null
  | int (i : Int)
  | real (r : Rat)
  | string (s : String)
  | bool (b : Bool)
  | array (items : List JsonValue)
  | object (members : List (String × JsonValue))

namespace JsonValue

/-- Largest `Json::UInt` (`Value::maxUInt`). -/
def maxUInt : Nat := 4294967295

/-- The member stored under `key`, when the value is an object that has one. -/
def member? (json : JsonValue) (key : String) : Option JsonValue :=
  match json with
  | object members => members.lookup key
  | _ => none

/-- Modelled from the spec: the library call `Value::get(key, defaultValue)`, the
member when the object has it and `defaultValue` when it is missing; a null
value has no members; the lookup is defined on an object or null only and is
taken to raise on any other value. -/
def get (json : JsonValue) (key : String) (defaultValue : JsonValue) :
    Except String JsonValue :=
  match json with
  | null => .ok defaultValue
  | object members =>
    match members.lookup key with
    | some v => .ok v
    | none => .ok defaultValue
  | _ => .error "requires objectValue or nullValue"

/-- Modelled from the spec: the library call `Value::asUInt()`, the field
extraction for the integer and boolean fields. Null is 0, a boolean is 0 or 1,
an integer or real in `0..maxUInt` is converted (a real by truncation),
everything else raises. -/
def asUInt : JsonValue → Except String Nat
  | null => .ok 0
  | int i =>
    if 0 ≤ i ∧ i ≤ (maxUInt : Int) then .ok i.toNat
    else .error "integer out of unsigned integer range"
  | real r =>
    if 0 ≤ r ∧ r ≤ (maxUInt : Rat) then .ok r.floor.toNat
    else .error "Real out of unsigned integer range"
  | bool b => .ok (if b then 1 else 0)
  | string _ => .error "Type is not convertible to uint"
  | array _ => .error "Type is not convertible to uint"
  | object _ => .error "Type is not convertible to uint"

/-- Modelled from the spec: the library call `Value::asString()`, the field
extraction for the text fields. Null is the empty string, a string is itself, a
boolean is `"true"` or `"false"`, everything else raises. -/
def asString : JsonValue → Except String String
  | null => .ok ""
  | string s => .ok s
  | bool b => .ok (if b then "true" else "false")
  | int _ => .error "Type is not convertible to string"
  | real _ => .error "Type is not convertible to string"
  | array _ => .error "Type is not convertible to string"
  | object _ => .error "Type is not convertible to string"

/-- The expression `json.get(key, 0).asUInt()`. -/
def getUInt (json : JsonValue) (key : String) : Except String Nat :=
  match json.get key (int 0) with
  | .ok v => v.asUInt
  | .error err => .error err

/-- The expression `json.get(key, "").asString()`. -/
def getString (json : JsonValue) (key : String) : Except String String :=
  match json.get key (string "") with
  | .ok v => v.asString
  | .error err => .error err

end JsonValue

/-- The collaborators of `Settings::Show` that live outside the module: the JSON
writer and reader and the modal HTML dialog. The dialog is given the serialized
configuration and returns its status code and its result string. -/
structure Externals where
  /-- The library call `Json::FastWriter::write`. -/
  write : JsonValue → String
  /-- The library call `Json::Reader::parse`: `none` when parsing fails. -/
  parse : String → Option JsonValue
  /-- The call `ShowHTMLDlg(hParentWnd, resource, locale, args, result)`: the
  status code and the result string for the given `args`. -/
  ShowHTMLDlg : String → Int × String

namespace Settings

/-- The source function `Settings::ToJson`. The getters return `bool`,
`unsigned int` or `string`; the defaults `SPLIT_TUNNEL_DEFAULT`, `FALSE`,
`NULL_PORT` and `SKIP_UPSTREAM_PROXY_DEFAULT` are the integer 0. -/
def ToJson (t : TransportNames) (reg : Registry) : JsonValue × Registry :=
  let (splitTunnel, reg) := SplitTunnel reg
  let (transport, reg) := Transport t reg
  let (httpPort, reg) := LocalHttpProxyPort reg
  let (socksPort, reg) := LocalSocksProxyPort reg
  let (skipUpstreamProxy, reg) := SkipUpstreamProxy reg
  let (upstreamProxyHostname, reg) := UpstreamProxyHostname reg
  let (upstreamProxyPort, reg) := UpstreamProxyPort reg
  let (egressRegion, reg) := EgressRegion reg
  (.object [
    ("SplitTunnel", .bool splitTunnel),
    ("VPN", .bool (decide (transport = TRANSPORT_VPN t))),
    ("LocalHttpProxyPort", .int httpPort),
    ("LocalSocksProxyPort", .int socksPort),
    ("SkipUpstreamProxy", .bool skipUpstreamProxy),
    ("UpstreamProxyHostname", .string upstreamProxyHostname),
    ("UpstreamProxyPort", .int upstreamProxyPort),
    ("EgressRegion", .string egressRegion),
    ("defaults", .object [
      ("SplitTunnel", .int SPLIT_TUNNEL_DEFAULT),
      ("VPN", .int 0),
      ("LocalHttpProxyPort", .int NULL_PORT),
      ("LocalSocksProxyPort", .int NULL_PORT),
      ("SkipUpstreamProxy", .int SKIP_UPSTREAM_PROXY_DEFAULT),
      ("UpstreamProxyHostname", .string UPSTREAM_PROXY_HOSTNAME_DEFAULT),
      ("UpstreamProxyPort", .int NULL_PORT),
      ("EgressRegion", .string EGRESS_REGION_DEFAULT)])], reg)

/-- The statement `settingsChanged = settingsChanged || differs`: the right
operand, which calls a getter, only runs when `settingsChanged` is still
false. -/
def orChanged (settingsChanged : Bool) (differs : Registry → Bool × Registry)
    (reg : Registry) : Bool × Registry :=
  if settingsChanged then (true, reg) else differs reg

/-- The `try` block of `Settings::Show` with its `catch`: an exception raised by
a field extraction leaves the block; `settingsChanged` is declared outside the
block and keeps the value it had, and the writes already made stay. -/
def Show.tryBlock (t : TransportNames) (json : JsonValue) (reg : Registry) :
    Bool × Registry :=
  let settingsChanged := false
  match json.getUInt "SplitTunnel" with
  | .error _ => (settingsChanged, reg)
  | .ok splitTunnel =>
  let (settingsChanged, reg) := orChanged settingsChanged
    (fun reg => let (v, reg) := SplitTunnel reg; (decide (splitTunnel ≠ 0) != v, reg)) reg
  let reg := WriteRegistryDwordValue SPLIT_TUNNEL_NAME splitTunnel reg
  match json.getUInt "VPN" with
  | .error _ => (settingsChanged, reg)
  | .ok vpn =>
  let transport := if vpn ≠ 0 then TRANSPORT_VPN t else TRANSPORT_DEFAULT t
  let (settingsChanged, reg) := orChanged settingsChanged
    (fun reg => let (v, reg) := Transport t reg; (transport != v, reg)) reg
  let reg := WriteRegistryStringValue TRANSPORT_NAME transport reg
  match json.getUInt "LocalHttpProxyPort" with
  | .error _ => (settingsChanged, reg)
  | .ok httpPort =>
  let (settingsChanged, reg) := orChanged settingsChanged
    (fun reg => let (v, reg) := LocalHttpProxyPort reg; (httpPort != v, reg)) reg
  let reg := WriteRegistryDwordValue HTTP_PROXY_PORT_NAME httpPort reg
  match json.getUInt "LocalSocksProxyPort" with
  | .error _ => (settingsChanged, reg)
  | .ok socksPort =>
  let (settingsChanged, reg) := orChanged settingsChanged
    (fun reg => let (v, reg) := LocalSocksProxyPort reg; (socksPort != v, reg)) reg
  let reg := WriteRegistryDwordValue SOCKS_PROXY_PORT_NAME socksPort reg
  match json.getString "UpstreamProxyHostname" with
  | .error _ => (settingsChanged, reg)
  | .ok upstreamProxyHostname =>
  let (settingsChanged, reg) := orChanged settingsChanged
    (fun reg => let (v, reg) := UpstreamProxyHostname reg; (upstreamProxyHostname != v, reg)) reg
  let reg := WriteRegistryStringValue UPSTREAM_PROXY_HOSTNAME_NAME upstreamProxyHostname reg
  match json.getUInt "UpstreamProxyPort" with
  | .error _ => (settingsChanged, reg)
  | .ok upstreamProxyPort =>
  let (settingsChanged, reg) := orChanged settingsChanged
    (fun reg => let (v, reg) := UpstreamProxyPort reg; (upstreamProxyPort != v, reg)) reg
  let reg := WriteRegistryDwordValue UPSTREAM_PROXY_PORT_NAME upstreamProxyPort reg
  match json.getUInt "SkipUpstreamProxy" with
  | .error _ => (settingsChanged, reg)
  | .ok skipUpstreamProxy =>
  let (settingsChanged, reg) := orChanged settingsChanged
    (fun reg =>
      let (v, reg) := SkipUpstreamProxy reg; (decide (skipUpstreamProxy ≠ 0) != v, reg)) reg
  let reg := WriteRegistryDwordValue SKIP_UPSTREAM_PROXY_NAME skipUpstreamProxy reg
  match json.getString "EgressRegion" with
  | .error _ => (settingsChanged, reg)
  | .ok egressRegion =>
  let (settingsChanged, reg) := orChanged settingsChanged
    (fun reg => let (v, reg) := EgressRegion reg; (egressRegion != v, reg)) reg
  let reg := WriteRegistryStringValue EGRESS_REGION_NAME egressRegion reg
  (settingsChanged, reg)

/-- The source function `Settings::Show`: export, run the dialog, parse its result, import. -/
def Show (x : Externals) (t : TransportNames) (reg : Registry) : Bool × Registry :=
  let (config, reg) := ToJson t reg
  let configData := x.write config
  let (status, result) := x.ShowHTMLDlg configData
  if status ≠ 1 then
    (false, reg)
  else
    match x.parse result with
    | none => (false, reg)
    | some json => Show.tryBlock t json reg

end Settings

/-! ## Vocabulary of the statements -/

/-- The transport name that the payload's VPN number expands to. -/
def expandTransport (t : TransportNames) (vpn : Nat) : String :=
  if vpn ≠ 0 then TRANSPORT_VPN t else TRANSPORT_DEFAULT t

/-- The number `n` is what the payload gives for the unsigned field `key`: the
conversion of the member when the payload has one, 0 when it has none. -/
def resolvesUInt (json : JsonValue) (key : String) (n : Nat) : Prop :=
  match json.member? key with
  | some v => v.asUInt = .ok n
  | none => n = 0

/-- The string `s` is what the payload gives for the text field `key`: the
conversion of the member when the payload has one, the empty string when it has
none. -/
def resolvesString (json : JsonValue) (key : String) (s : String) : Prop :=
  match json.member? key with
  | some v => v.asString = .ok s
  | none => s = ""

/-! ## Concrete inputs -/

/-- Transport names for the examples. -/
def exampleNames : TransportNames :=
  { CORE_TRANSPORT_PROTOCOL_NAME := "CoreTransport", VPN_TRANSPORT_PROTOCOL_NAME := "VPN" }

/-- A registry whose three port settings are out of range. -/
def regBigPorts : Registry :=
  { dwords := fun k =>
      if k = "LocalHTTPProxyPort" then some 70000
      else if k = "LocalSOCKSProxyPort" then some 65536
      else if k = "SSHParentProxyPort" then some 4294967295
      else none,
    strings := fun _ => none }

/-- A registry with the VPN transport selected. -/
def regVpn : Registry :=
  { dwords := fun _ => none,
    strings := fun k => if k = "Transport" then some "VPN" else none }

/-- A dialog that is accepted and hands back text that the reader rejects. -/
def garbageDialog : Externals :=
  { write := fun _ => "", parse := fun _ => none, ShowHTMLDlg := fun _ => (1, "\x7b") }

/-- A dialog that is accepted and whose result text the reader turns into
`json`. -/
def acceptingDialog (json : JsonValue) : Externals :=
  { write := fun _ => "config", parse := fun _ => some json,
    ShowHTMLDlg := fun _ => (1, "result") }

/-- A dialog that is accepted and hands its input back unmodified, with a reader
that turns that text into `json`. -/
def echoDialog (json : JsonValue) : Externals :=
  { write := fun _ => "config", parse := fun _ => some json,
    ShowHTMLDlg := fun args => (1, args) }

/-- A payload that selects VPN, sets the HTTP port and the region, and omits the
other fields. -/
def payloadVpn : JsonValue :=
  .object [("VPN", .bool true), ("LocalHttpProxyPort", .int 8080),
    ("EgressRegion", .string "CA")]

/-- A payload without an EgressRegion member. -/
def payloadNoRegion : JsonValue :=
  .object [("SplitTunnel", .bool false), ("VPN", .bool false), ("LocalHttpProxyPort", .int 0)]

/-- A registry with a stored egress region. -/
def regRegion : Registry :=
  { dwords := fun _ => none,
    strings := fun k => if k = "EgressRegion" then some "US" else none }

/-! ## Vocabulary for the partial import -/

/-- The eight settings the dialog edits. -/
inductive Field where
  | SplitTunnel | VPN | LocalHttpProxyPort | LocalSocksProxyPort
  | UpstreamProxyHostname | UpstreamProxyPort | SkipUpstreamProxy | EgressRegion
  deriving DecidableEq

/-- The order in which `Settings::Show` processes the fields. -/
def Field.order : List Field :=
  [.SplitTunnel, .VPN, .LocalHttpProxyPort, .LocalSocksProxyPort,
   .UpstreamProxyHostname, .UpstreamProxyPort, .SkipUpstreamProxy, .EgressRegion]

/-- A value stored under a registry name. -/
inductive RegValue where
  | dword (n : Nat)
  | text (s : String)
  deriving DecidableEq

/-- What `Settings::Show` extracts from the payload for a field, as the value it
writes for it (the VPN number expanded to the transport name); an error when the
extraction raises. -/
def Field.resolve (t : TransportNames) (json : JsonValue) : Field → Except String RegValue
  | .SplitTunnel =>
    match json.getUInt "SplitTunnel" with
    | .ok st => .ok (.dword st)
    | .error err => .error err
  | .VPN =>
    match json.getUInt "VPN" with
    | .ok vpn => .ok (.text (expandTransport t vpn))
    | .error err => .error err
  | .LocalHttpProxyPort =>
    match json.getUInt "LocalHttpProxyPort" with
    | .ok hp => .ok (.dword hp)
    | .error err => .error err
  | .LocalSocksProxyPort =>
    match json.getUInt "LocalSocksProxyPort" with
    | .ok sp => .ok (.dword sp)
    | .error err => .error err
  | .UpstreamProxyHostname =>
    match json.getString "UpstreamProxyHostname" with
    | .ok hn => .ok (.text hn)
    | .error err => .error err
  | .UpstreamProxyPort =>
    match json.getUInt "UpstreamProxyPort" with
    | .ok up => .ok (.dword up)
    | .error err => .error err
  | .SkipUpstreamProxy =>
    match json.getUInt "SkipUpstreamProxy" with
    | .ok sk => .ok (.dword sk)
    | .error err => .error err
  | .EgressRegion =>
    match json.getString "EgressRegion" with
    | .ok er => .ok (.text er)
    | .error err => .error err

/-- What the registry holds under the key of a field. -/
def Field.stored (reg : Registry) : Field → Option RegValue
  | .SplitTunnel => (ReadRegistryDwordValue SPLIT_TUNNEL_NAME reg).map .dword
  | .VPN => (ReadRegistryStringValue TRANSPORT_NAME reg).map .text
  | .LocalHttpProxyPort => (ReadRegistryDwordValue HTTP_PROXY_PORT_NAME reg).map .dword
  | .LocalSocksProxyPort => (ReadRegistryDwordValue SOCKS_PROXY_PORT_NAME reg).map .dword
  | .UpstreamProxyHostname => (ReadRegistryStringValue UPSTREAM_PROXY_HOSTNAME_NAME reg).map .text
  | .UpstreamProxyPort => (ReadRegistryDwordValue UPSTREAM_PROXY_PORT_NAME reg).map .dword
  | .SkipUpstreamProxy => (ReadRegistryDwordValue SKIP_UPSTREAM_PROXY_NAME reg).map .dword
  | .EgressRegion => (ReadRegistryStringValue EGRESS_REGION_NAME reg).map .text

/-- The number the payload holds for the unsigned field `key`, read off the
payload itself: the conversion of the member `key` when the payload has one
(nothing when that member does not convert), 0 when it has none. -/
def payloadUInt (json : JsonValue) (key : String) : Option Nat :=
  match json.member? key with
  | some m =>
    match m.asUInt with
    | .ok n => some n
    | .error _ => none
  | none => some 0

/-- The string the payload holds for the text field `key`, read off the payload
itself: the conversion of the member `key` when the payload has one (nothing
when that member does not convert), the empty string when it has none. -/
def payloadString (json : JsonValue) (key : String) : Option String :=
  match json.member? key with
  | some m =>
    match m.asString with
    | .ok s => some s
    | .error _ => none
  | none => some ""

/-- The payload value of a field, as the registry value to be stored for it: the
number or string the payload holds under the name of the field, the VPN number
expanded to the transport name. -/
def Field.payloadValue (t : TransportNames) (json : JsonValue) : Field → Option RegValue
  | .SplitTunnel => (payloadUInt json "SplitTunnel").map .dword
  | .VPN => (payloadUInt json "VPN").map (fun vpn => .text (expandTransport t vpn))
  | .LocalHttpProxyPort => (payloadUInt json "LocalHttpProxyPort").map .dword
  | .LocalSocksProxyPort => (payloadUInt json "LocalSocksProxyPort").map .dword
  | .UpstreamProxyHostname => (payloadString json "UpstreamProxyHostname").map .text
  | .UpstreamProxyPort => (payloadUInt json "UpstreamProxyPort").map .dword
  | .SkipUpstreamProxy => (payloadUInt json "SkipUpstreamProxy").map .dword
  | .EgressRegion => (payloadString json "EgressRegion").map .text

/-- Whether a value for a field differs from what the getter of the setting
returns on `reg`: the two boolean settings compared as booleans, the others as
they are. -/
def Field.differs (t : TransportNames) (reg : Registry) : Field → RegValue → Bool
  | .SplitTunnel, .dword st => decide (st ≠ 0) != (Settings.SplitTunnel reg).1
  | .VPN, .text transport => transport != (Settings.Transport t reg).1
  | .LocalHttpProxyPort, .dword hp => hp != (Settings.LocalHttpProxyPort reg).1
  | .LocalSocksProxyPort, .dword sp => sp != (Settings.LocalSocksProxyPort reg).1
  | .UpstreamProxyHostname, .text hn => hn != (Settings.UpstreamProxyHostname reg).1
  | .UpstreamProxyPort, .dword up => up != (Settings.UpstreamProxyPort reg).1
  | .SkipUpstreamProxy, .dword sk => decide (sk ≠ 0) != (Settings.SkipUpstreamProxy reg).1
  | .EgressRegion, .text er => er != (Settings.EgressRegion reg).1
  | _, _ => false

/-- The changed flag of a field: whether its payload value differs from what the
getter of the setting returns on `reg`. -/
def Field.changed (t : TransportNames) (json : JsonValue) (reg : Registry) (f : Field) : Bool :=
  match f.payloadValue t json with
  | some v => f.differs t reg v
  | none => false

/-- A payload whose first five fields extract, with a hostname among them, and
whose upstream proxy port is a string. -/
def payloadBadUpstreamPort : JsonValue :=
  .object [("VPN", .bool true), ("LocalHttpProxyPort", .int 8080),
    ("UpstreamProxyHostname", .string "proxy.example"),
    ("UpstreamProxyPort", .string "x"), ("EgressRegion", .string "CA")]

/-! ## Basic facts about the getters -/

@[simp] theorem GetSettingDword_noWrite (name : String) (d : Nat) (reg : Registry) :
    GetSettingDword name d false reg = ((reg.dwords name).getD d, reg) := by
  unfold GetSettingDword ReadRegistryDwordValue
  cases reg.dwords name <;> simp

@[simp] theorem GetSettingString_noWrite (name : String) (d : String) (reg : Registry) :
    GetSettingString name d false reg = ((reg.strings name).getD d, reg) := by
  unfold GetSettingString ReadRegistryStringValue
  cases reg.strings name <;> simp

@[simp] theorem SplitTunnel_snd (reg : Registry) : (Settings.SplitTunnel reg).2 = reg := rfl

@[simp] theorem Transport_snd (t : TransportNames) (reg : Registry) :
    (Settings.Transport t reg).2 = reg := by
  simp only [Settings.Transport, GetSettingString_noWrite]
  split <;> rfl

@[simp] theorem LocalHttpProxyPort_snd (reg : Registry) :
    (Settings.LocalHttpProxyPort reg).2 = reg := by
  simp only [Settings.LocalHttpProxyPort, GetSettingDword_noWrite]
  split <;> rfl

@[simp] theorem LocalSocksProxyPort_snd (reg : Registry) :
    (Settings.LocalSocksProxyPort reg).2 = reg := by
  simp only [Settings.LocalSocksProxyPort, GetSettingDword_noWrite]
  split <;> rfl

@[simp] theorem UpstreamProxyPort_snd (reg : Registry) :
    (Settings.UpstreamProxyPort reg).2 = reg := by
  simp only [Settings.UpstreamProxyPort, GetSettingDword_noWrite]
  split <;> rfl

@[simp] theorem UpstreamProxyHostname_snd (reg : Registry) :
    (Settings.UpstreamProxyHostname reg).2 = reg := by
  simp [Settings.UpstreamProxyHostname]

@[simp] theorem SkipUpstreamProxy_snd (reg : Registry) :
    (Settings.SkipUpstreamProxy reg).2 = reg := by
  simp [Settings.SkipUpstreamProxy]

@[simp] theorem EgressRegion_snd (reg : Registry) : (Settings.EgressRegion reg).2 = reg := by
  simp [Settings.EgressRegion]

/-- The export does not touch the registry. -/
@[simp] theorem ToJson_snd (t : TransportNames) (reg : Registry) :
    (Settings.ToJson t reg).2 = reg := by
  have h1 := Transport_snd t reg
  have h2 := LocalHttpProxyPort_snd reg
  have h3 := LocalSocksProxyPort_snd reg
  have h4 := UpstreamProxyPort_snd reg
  unfold Settings.ToJson
  simp only [Settings.SplitTunnel, Settings.SkipUpstreamProxy, Settings.UpstreamProxyHostname,
    Settings.EgressRegion, GetSettingDword_noWrite, GetSettingString_noWrite]
  rcases ht : Settings.Transport t reg with ⟨a, r1⟩
  rw [ht] at h1; simp only at h1; subst h1
  rcases hh : Settings.LocalHttpProxyPort r1 with ⟨b, r2⟩
  rw [hh] at h2; simp only at h2; subst h2
  rcases hs : Settings.LocalSocksProxyPort r2 with ⟨c, r3⟩
  rw [hs] at h3; simp only at h3; subst h3
  rcases hu : Settings.UpstreamProxyPort r3 with ⟨d, r4⟩
  rw [hu] at h4; simp only at h4; subst h4
  rfl

/-- A port getter never returns more than `MAX_PORT`. -/
theorem clamp_le (port d : Nat) (hd : d ≤ MAX_PORT) :
    (if port > MAX_PORT then d else port) ≤ MAX_PORT := by
  split <;> omega

/-! ## Closed forms of the getters and of the import block -/

theorem Transport_eq (t : TransportNames) (reg : Registry) :
    Settings.Transport t reg =
      (if (reg.strings TRANSPORT_NAME).getD (TRANSPORT_DEFAULT t) = TRANSPORT_VPN t
        then TRANSPORT_VPN t else TRANSPORT_DEFAULT t, reg) := by
  simp only [Settings.Transport, GetSettingString_noWrite]
  split <;> simp_all

theorem LocalHttpProxyPort_eq (reg : Registry) :
    Settings.LocalHttpProxyPort reg =
      (if (reg.dwords HTTP_PROXY_PORT_NAME).getD 0 > MAX_PORT then 0
        else (reg.dwords HTTP_PROXY_PORT_NAME).getD 0, reg) := by
  simp only [Settings.LocalHttpProxyPort, GetSettingDword_noWrite, HTTP_PROXY_PORT_DEFAULT,
    NULL_PORT]
  split <;> simp_all

theorem LocalSocksProxyPort_eq (reg : Registry) :
    Settings.LocalSocksProxyPort reg =
      (if (reg.dwords SOCKS_PROXY_PORT_NAME).getD 0 > MAX_PORT then 0
        else (reg.dwords SOCKS_PROXY_PORT_NAME).getD 0, reg) := by
  simp only [Settings.LocalSocksProxyPort, GetSettingDword_noWrite, SOCKS_PROXY_PORT_DEFAULT,
    NULL_PORT]
  split <;> simp_all

theorem UpstreamProxyPort_eq (reg : Registry) :
    Settings.UpstreamProxyPort reg =
      (if (reg.dwords UPSTREAM_PROXY_PORT_NAME).getD 0 > MAX_PORT then 0
        else (reg.dwords UPSTREAM_PROXY_PORT_NAME).getD 0, reg) := by
  simp only [Settings.UpstreamProxyPort, GetSettingDword_noWrite, UPSTREAM_PROXY_PORT_DEFAULT,
    NULL_PORT]
  split <;> simp_all

theorem UpstreamProxyHostname_eq (reg : Registry) :
    Settings.UpstreamProxyHostname reg =
      ((reg.strings UPSTREAM_PROXY_HOSTNAME_NAME).getD "", reg) := by
  simp [Settings.UpstreamProxyHostname, UPSTREAM_PROXY_HOSTNAME_DEFAULT]

theorem SkipUpstreamProxy_eq (reg : Registry) :
    Settings.SkipUpstreamProxy reg =
      (decide ((reg.dwords SKIP_UPSTREAM_PROXY_NAME).getD 0 ≠ 0), reg) := by
  simp [Settings.SkipUpstreamProxy, SKIP_UPSTREAM_PROXY_DEFAULT]

theorem EgressRegion_eq (reg : Registry) :
    Settings.EgressRegion reg = ((reg.strings EGRESS_REGION_NAME).getD "", reg) := by
  simp [Settings.EgressRegion, EGRESS_REGION_DEFAULT]

theorem orChanged_eq (c : Bool) (differs : Registry → Bool × Registry) (reg : Registry)
    (h : (differs reg).2 = reg) :
    Settings.orChanged c differs reg = (c || (differs reg).1, reg) := by
  unfold Settings.orChanged
  cases c
  · simp only [Bool.false_or]
    exact Prod.ext rfl h
  · simp

/-- The import block when all eight extractions succeed: the flag is the OR of
the eight comparisons against the getters on the registry before the block, and
the registry is the old one with the eight writes applied in order. -/
theorem tryBlock_all_ok (t : TransportNames) (json : JsonValue) (reg : Registry)
    (st vpn hp sp up sk : Nat) (hn er : String)
    (h1 : json.getUInt "SplitTunnel" = .ok st)
    (h2 : json.getUInt "VPN" = .ok vpn)
    (h3 : json.getUInt "LocalHttpProxyPort" = .ok hp)
    (h4 : json.getUInt "LocalSocksProxyPort" = .ok sp)
    (h5 : json.getString "UpstreamProxyHostname" = .ok hn)
    (h6 : json.getUInt "UpstreamProxyPort" = .ok up)
    (h7 : json.getUInt "SkipUpstreamProxy" = .ok sk)
    (h8 : json.getString "EgressRegion" = .ok er) :
    Settings.Show.tryBlock t json reg =
      ((decide (st ≠ 0) != (Settings.SplitTunnel reg).1)
        || (expandTransport t vpn != (Settings.Transport t reg).1)
        || (hp != (Settings.LocalHttpProxyPort reg).1)
        || (sp != (Settings.LocalSocksProxyPort reg).1)
        || (hn != (Settings.UpstreamProxyHostname reg).1)
        || (up != (Settings.UpstreamProxyPort reg).1)
        || (decide (sk ≠ 0) != (Settings.SkipUpstreamProxy reg).1)
        || (er != (Settings.EgressRegion reg).1),
       WriteRegistryStringValue EGRESS_REGION_NAME er
        (WriteRegistryDwordValue SKIP_UPSTREAM_PROXY_NAME sk
        (WriteRegistryDwordValue UPSTREAM_PROXY_PORT_NAME up
        (WriteRegistryStringValue UPSTREAM_PROXY_HOSTNAME_NAME hn
        (WriteRegistryDwordValue SOCKS_PROXY_PORT_NAME sp
        (WriteRegistryDwordValue HTTP_PROXY_PORT_NAME hp
        (WriteRegistryStringValue TRANSPORT_NAME (expandTransport t vpn)
        (WriteRegistryDwordValue SPLIT_TUNNEL_NAME st reg)))))))) := by
  unfold Settings.Show.tryBlock
  simp only [h1, h2, h3, h4, h5, h6, h7, h8]
  simp [orChanged_eq, Transport_eq, LocalHttpProxyPort_eq, LocalSocksProxyPort_eq,
    UpstreamProxyPort_eq, UpstreamProxyHostname_eq, SkipUpstreamProxy_eq, EgressRegion_eq,
    Settings.SplitTunnel, expandTransport, WriteRegistryDwordValue, WriteRegistryStringValue,
    SPLIT_TUNNEL_NAME, TRANSPORT_NAME, HTTP_PROXY_PORT_NAME, SOCKS_PROXY_PORT_NAME,
    UPSTREAM_PROXY_HOSTNAME_NAME, UPSTREAM_PROXY_PORT_NAME, SKIP_UPSTREAM_PROXY_NAME,
    EGRESS_REGION_NAME]

/-! ### The import block when an extraction raises

One lemma for each position of the first failing extraction: the flag is the OR
of the comparisons made before it and the registry has the writes made before
it. -/

theorem tryBlock_fail_1 (t : TransportNames) (json : JsonValue) (reg : Registry)
    (err : String)
    (h1 : json.getUInt "SplitTunnel" = .error err) :
    Settings.Show.tryBlock t json reg =
      (false,
       reg) := by
  unfold Settings.Show.tryBlock
  simp only [h1]

theorem tryBlock_fail_2 (t : TransportNames) (json : JsonValue) (reg : Registry)
    (st : Nat) (err : String)
    (h1 : json.getUInt "SplitTunnel" = .ok st)
    (h2 : json.getUInt "VPN" = .error err) :
    Settings.Show.tryBlock t json reg =
      ((decide (st ≠ 0) != (Settings.SplitTunnel reg).1),
       WriteRegistryDwordValue SPLIT_TUNNEL_NAME st reg) := by
  unfold Settings.Show.tryBlock
  simp only [h1, h2]
  simp [orChanged_eq, Transport_eq, LocalHttpProxyPort_eq, LocalSocksProxyPort_eq,
    UpstreamProxyPort_eq, UpstreamProxyHostname_eq, SkipUpstreamProxy_eq, EgressRegion_eq,
    Settings.SplitTunnel, expandTransport, WriteRegistryDwordValue, WriteRegistryStringValue,
    SPLIT_TUNNEL_NAME, TRANSPORT_NAME, HTTP_PROXY_PORT_NAME, SOCKS_PROXY_PORT_NAME,
    UPSTREAM_PROXY_HOSTNAME_NAME, UPSTREAM_PROXY_PORT_NAME, SKIP_UPSTREAM_PROXY_NAME,
    EGRESS_REGION_NAME]

theorem tryBlock_fail_3 (t : TransportNames) (json : JsonValue) (reg : Registry)
    (st : Nat) (vpn : Nat) (err : String)
    (h1 : json.getUInt "SplitTunnel" = .ok st)
    (h2 : json.getUInt "VPN" = .ok vpn)
    (h3 : json.getUInt "LocalHttpProxyPort" = .error err) :
    Settings.Show.tryBlock t json reg =
      ((decide (st ≠ 0) != (Settings.SplitTunnel reg).1)
        || (expandTransport t vpn != (Settings.Transport t reg).1),
       WriteRegistryStringValue TRANSPORT_NAME (expandTransport t vpn)
        (WriteRegistryDwordValue SPLIT_TUNNEL_NAME st reg)) := by
  unfold Settings.Show.tryBlock
  simp only [h1, h2, h3]
  simp [orChanged_eq, Transport_eq, LocalHttpProxyPort_eq, LocalSocksProxyPort_eq,
    UpstreamProxyPort_eq, UpstreamProxyHostname_eq, SkipUpstreamProxy_eq, EgressRegion_eq,
    Settings.SplitTunnel, expandTransport, WriteRegistryDwordValue, WriteRegistryStringValue,
    SPLIT_TUNNEL_NAME, TRANSPORT_NAME, HTTP_PROXY_PORT_NAME, SOCKS_PROXY_PORT_NAME,
    UPSTREAM_PROXY_HOSTNAME_NAME, UPSTREAM_PROXY_PORT_NAME, SKIP_UPSTREAM_PROXY_NAME,
    EGRESS_REGION_NAME]

theorem tryBlock_fail_4 (t : TransportNames) (json : JsonValue) (reg : Registry)
    (st : Nat) (vpn : Nat) (hp : Nat) (err : String)
    (h1 : json.getUInt "SplitTunnel" = .ok st)
    (h2 : json.getUInt "VPN" = .ok vpn)
    (h3 : json.getUInt "LocalHttpProxyPort" = .ok hp)
    (h4 : json.getUInt "LocalSocksProxyPort" = .error err) :
    Settings.Show.tryBlock t json reg =
      ((decide (st ≠ 0) != (Settings.SplitTunnel reg).1)
        || (expandTransport t vpn != (Settings.Transport t reg).1)
        || (hp != (Settings.LocalHttpProxyPort reg).1),
       WriteRegistryDwordValue HTTP_PROXY_PORT_NAME hp
        (WriteRegistryStringValue TRANSPORT_NAME (expandTransport t vpn)
        (WriteRegistryDwordValue SPLIT_TUNNEL_NAME st reg))) := by
  unfold Settings.Show.tryBlock
  simp only [h1, h2, h3, h4]
  simp [orChanged_eq, Transport_eq, LocalHttpProxyPort_eq, LocalSocksProxyPort_eq,
    UpstreamProxyPort_eq, UpstreamProxyHostname_eq, SkipUpstreamProxy_eq, EgressRegion_eq,
    Settings.SplitTunnel, expandTransport, WriteRegistryDwordValue, WriteRegistryStringValue,
    SPLIT_TUNNEL_NAME, TRANSPORT_NAME, HTTP_PROXY_PORT_NAME, SOCKS_PROXY_PORT_NAME,
    UPSTREAM_PROXY_HOSTNAME_NAME, UPSTREAM_PROXY_PORT_NAME, SKIP_UPSTREAM_PROXY_NAME,
    EGRESS_REGION_NAME]

theorem tryBlock_fail_5 (t : TransportNames) (json : JsonValue) (reg : Registry)
    (st : Nat) (vpn : Nat) (hp : Nat) (sp : Nat) (err : String)
    (h1 : json.getUInt "SplitTunnel" = .ok st)
    (h2 : json.getUInt "VPN" = .ok vpn)
    (h3 : json.getUInt "LocalHttpProxyPort" = .ok hp)
    (h4 : json.getUInt "LocalSocksProxyPort" = .ok sp)
    (h5 : json.getString "UpstreamProxyHostname" = .error err) :
    Settings.Show.tryBlock t json reg =
      ((decide (st ≠ 0) != (Settings.SplitTunnel reg).1)
        || (expandTransport t vpn != (Settings.Transport t reg).1)
        || (hp != (Settings.LocalHttpProxyPort reg).1)
        || (sp != (Settings.LocalSocksProxyPort reg).1),
       WriteRegistryDwordValue SOCKS_PROXY_PORT_NAME sp
        (WriteRegistryDwordValue HTTP_PROXY_PORT_NAME hp
        (WriteRegistryStringValue TRANSPORT_NAME (expandTransport t vpn)
        (WriteRegistryDwordValue SPLIT_TUNNEL_NAME st reg)))) := by
  unfold Settings.Show.tryBlock
  simp only [h1, h2, h3, h4, h5]
  simp [orChanged_eq, Transport_eq, LocalHttpProxyPort_eq, LocalSocksProxyPort_eq,
    UpstreamProxyPort_eq, UpstreamProxyHostname_eq, SkipUpstreamProxy_eq, EgressRegion_eq,
    Settings.SplitTunnel, expandTransport, WriteRegistryDwordValue, WriteRegistryStringValue,
    SPLIT_TUNNEL_NAME, TRANSPORT_NAME, HTTP_PROXY_PORT_NAME, SOCKS_PROXY_PORT_NAME,
    UPSTREAM_PROXY_HOSTNAME_NAME, UPSTREAM_PROXY_PORT_NAME, SKIP_UPSTREAM_PROXY_NAME,
    EGRESS_REGION_NAME]

theorem tryBlock_fail_6 (t : TransportNames) (json : JsonValue) (reg : Registry)
    (st : Nat) (vpn : Nat) (hp : Nat) (sp : Nat) (hn : String) (err : String)
    (h1 : json.getUInt "SplitTunnel" = .ok st)
    (h2 : json.getUInt "VPN" = .ok vpn)
    (h3 : json.getUInt "LocalHttpProxyPort" = .ok hp)
    (h4 : json.getUInt "LocalSocksProxyPort" = .ok sp)
    (h5 : json.getString "UpstreamProxyHostname" = .ok hn)
    (h6 : json.getUInt "UpstreamProxyPort" = .error err) :
    Settings.Show.tryBlock t json reg =
      ((decide (st ≠ 0) != (Settings.SplitTunnel reg).1)
        || (expandTransport t vpn != (Settings.Transport t reg).1)
        || (hp != (Settings.LocalHttpProxyPort reg).1)
        || (sp != (Settings.LocalSocksProxyPort reg).1)
        || (hn != (Settings.UpstreamProxyHostname reg).1),
       WriteRegistryStringValue UPSTREAM_PROXY_HOSTNAME_NAME hn
        (WriteRegistryDwordValue SOCKS_PROXY_PORT_NAME sp
        (WriteRegistryDwordValue HTTP_PROXY_PORT_NAME hp
        (WriteRegistryStringValue TRANSPORT_NAME (expandTransport t vpn)
        (WriteRegistryDwordValue SPLIT_TUNNEL_NAME st reg))))) := by
  unfold Settings.Show.tryBlock
  simp only [h1, h2, h3, h4, h5, h6]
  simp [orChanged_eq, Transport_eq, LocalHttpProxyPort_eq, LocalSocksProxyPort_eq,
    UpstreamProxyPort_eq, UpstreamProxyHostname_eq, SkipUpstreamProxy_eq, EgressRegion_eq,
    Settings.SplitTunnel, expandTransport, WriteRegistryDwordValue, WriteRegistryStringValue,
    SPLIT_TUNNEL_NAME, TRANSPORT_NAME, HTTP_PROXY_PORT_NAME, SOCKS_PROXY_PORT_NAME,
    UPSTREAM_PROXY_HOSTNAME_NAME, UPSTREAM_PROXY_PORT_NAME, SKIP_UPSTREAM_PROXY_NAME,
    EGRESS_REGION_NAME]

theorem tryBlock_fail_7 (t : TransportNames) (json : JsonValue) (reg : Registry)
    (st : Nat) (vpn : Nat) (hp : Nat) (sp : Nat) (hn : String) (up : Nat) (err : String)
    (h1 : json.getUInt "SplitTunnel" = .ok st)
    (h2 : json.getUInt "VPN" = .ok vpn)
    (h3 : json.getUInt "LocalHttpProxyPort" = .ok hp)
    (h4 : json.getUInt "LocalSocksProxyPort" = .ok sp)
    (h5 : json.getString "UpstreamProxyHostname" = .ok hn)
    (h6 : json.getUInt "UpstreamProxyPort" = .ok up)
    (h7 : json.getUInt "SkipUpstreamProxy" = .error err) :
    Settings.Show.tryBlock t json reg =
      ((decide (st ≠ 0) != (Settings.SplitTunnel reg).1)
        || (expandTransport t vpn != (Settings.Transport t reg).1)
        || (hp != (Settings.LocalHttpProxyPort reg).1)
        || (sp != (Settings.LocalSocksProxyPort reg).1)
        || (hn != (Settings.UpstreamProxyHostname reg).1)
        || (up != (Settings.UpstreamProxyPort reg).1),
       WriteRegistryDwordValue UPSTREAM_PROXY_PORT_NAME up
        (WriteRegistryStringValue UPSTREAM_PROXY_HOSTNAME_NAME hn
        (WriteRegistryDwordValue SOCKS_PROXY_PORT_NAME sp
        (WriteRegistryDwordValue HTTP_PROXY_PORT_NAME hp
        (WriteRegistryStringValue TRANSPORT_NAME (expandTransport t vpn)
        (WriteRegistryDwordValue SPLIT_TUNNEL_NAME st reg)))))) := by
  unfold Settings.Show.tryBlock
  simp only [h1, h2, h3, h4, h5, h6, h7]
  simp [orChanged_eq, Transport_eq, LocalHttpProxyPort_eq, LocalSocksProxyPort_eq,
    UpstreamProxyPort_eq, UpstreamProxyHostname_eq, SkipUpstreamProxy_eq, EgressRegion_eq,
    Settings.SplitTunnel, expandTransport, WriteRegistryDwordValue, WriteRegistryStringValue,
    SPLIT_TUNNEL_NAME, TRANSPORT_NAME, HTTP_PROXY_PORT_NAME, SOCKS_PROXY_PORT_NAME,
    UPSTREAM_PROXY_HOSTNAME_NAME, UPSTREAM_PROXY_PORT_NAME, SKIP_UPSTREAM_PROXY_NAME,
    EGRESS_REGION_NAME]

theorem tryBlock_fail_8 (t : TransportNames) (json : JsonValue) (reg : Registry)
    (st : Nat) (vpn : Nat) (hp : Nat) (sp : Nat) (hn : String) (up : Nat) (sk : Nat) (err : String)
    (h1 : json.getUInt "SplitTunnel" = .ok st)
    (h2 : json.getUInt "VPN" = .ok vpn)
    (h3 : json.getUInt "LocalHttpProxyPort" = .ok hp)
    (h4 : json.getUInt "LocalSocksProxyPort" = .ok sp)
    (h5 : json.getString "UpstreamProxyHostname" = .ok hn)
    (h6 : json.getUInt "UpstreamProxyPort" = .ok up)
    (h7 : json.getUInt "SkipUpstreamProxy" = .ok sk)
    (h8 : json.getString "EgressRegion" = .error err) :
    Settings.Show.tryBlock t json reg =
      ((decide (st ≠ 0) != (Settings.SplitTunnel reg).1)
        || (expandTransport t vpn != (Settings.Transport t reg).1)
        || (hp != (Settings.LocalHttpProxyPort reg).1)
        || (sp != (Settings.LocalSocksProxyPort reg).1)
        || (hn != (Settings.UpstreamProxyHostname reg).1)
        || (up != (Settings.UpstreamProxyPort reg).1)
        || (decide (sk ≠ 0) != (Settings.SkipUpstreamProxy reg).1),
       WriteRegistryDwordValue SKIP_UPSTREAM_PROXY_NAME sk
        (WriteRegistryDwordValue UPSTREAM_PROXY_PORT_NAME up
        (WriteRegistryStringValue UPSTREAM_PROXY_HOSTNAME_NAME hn
        (WriteRegistryDwordValue SOCKS_PROXY_PORT_NAME sp
        (WriteRegistryDwordValue HTTP_PROXY_PORT_NAME hp
        (WriteRegistryStringValue TRANSPORT_NAME (expandTransport t vpn)
        (WriteRegistryDwordValue SPLIT_TUNNEL_NAME st reg))))))) := by
  unfold Settings.Show.tryBlock
  simp only [h1, h2, h3, h4, h5, h6, h7, h8]
  simp [orChanged_eq, Transport_eq, LocalHttpProxyPort_eq, LocalSocksProxyPort_eq,
    UpstreamProxyPort_eq, UpstreamProxyHostname_eq, SkipUpstreamProxy_eq, EgressRegion_eq,
    Settings.SplitTunnel, expandTransport, WriteRegistryDwordValue, WriteRegistryStringValue,
    SPLIT_TUNNEL_NAME, TRANSPORT_NAME, HTTP_PROXY_PORT_NAME, SOCKS_PROXY_PORT_NAME,
    UPSTREAM_PROXY_HOSTNAME_NAME, UPSTREAM_PROXY_PORT_NAME, SKIP_UPSTREAM_PROXY_NAME,
    EGRESS_REGION_NAME]

/-- Once the dialog is accepted and its result parses, `Settings::Show` is the
block that imports the payload, run on the registry the call started with. -/
theorem Show_accepted (x : Externals) (t : TransportNames) (reg : Registry)
    (result : String) (json : JsonValue)
    (hdlg : x.ShowHTMLDlg (x.write (Settings.ToJson t reg).1) = (1, result))
    (hparse : x.parse result = some json) :
    Settings.Show x t reg = Settings.Show.tryBlock t json reg := by
  have h := ToJson_snd t reg
  unfold Settings.Show
  rcases hj : Settings.ToJson t reg with ⟨config, r⟩
  rw [hj] at h hdlg
  simp only at h hdlg
  subst h
  simp [hdlg, hparse]

theorem getUInt_resolves (json : JsonValue) (key : String) (n : Nat)
    (h : json.getUInt key = .ok n) : resolvesUInt json key n := by
  unfold resolvesUInt
  cases json <;>
    simp [JsonValue.getUInt, JsonValue.get, JsonValue.member?, JsonValue.asUInt] at h ⊢
  · exact h.symm
  · rename_i members
    cases hl : members.lookup key with
    | none => simp [hl, JsonValue.asUInt] at h ⊢; exact h.symm
    | some v => simpa [hl] using h

theorem getString_resolves (json : JsonValue) (key : String) (s : String)
    (h : json.getString key = .ok s) : resolvesString json key s := by
  unfold resolvesString
  cases json <;>
    simp [JsonValue.getString, JsonValue.get, JsonValue.member?, JsonValue.asString] at h ⊢
  · exact h.symm
  · rename_i members
    cases hl : members.lookup key with
    | none => simp [hl, JsonValue.asString] at h ⊢; exact h.symm
    | some v => simpa [hl] using h

/-- An extraction that succeeds on one key shows the payload root is an object
or null, so a text field the payload lacks extracts as the empty string. -/
theorem getString_missing (json : JsonValue) (key key0 : String) (n : Nat)
    (h0 : json.getUInt key0 = .ok n) (hm : json.member? key = none) :
    json.getString key = .ok "" := by
  cases json with
  | null => rfl
  | object members =>
    simp only [JsonValue.member?] at hm
    simp only [JsonValue.getString, JsonValue.get, hm, JsonValue.asString]
  | _ => simp [JsonValue.getUInt, JsonValue.get] at h0

/-- A payload whose member `key` is a boolean extracts as 1 or 0. -/
theorem getUInt_bool (json : JsonValue) (key : String) (b : Bool)
    (hm : json.member? key = some (.bool b)) :
    json.getUInt key = .ok (if b then 1 else 0) := by
  cases json with
  | object members =>
    simp only [JsonValue.member?] at hm
    simp only [JsonValue.getUInt, JsonValue.get, hm, JsonValue.asUInt]
  | _ => simp [JsonValue.member?] at hm

/-- The value `Settings::ToJson` exports, in terms of the getters. -/
theorem ToJson_fst (t : TransportNames) (reg : Registry) :
    (Settings.ToJson t reg).1 =
      .object [
        ("SplitTunnel", .bool (Settings.SplitTunnel reg).1),
        ("VPN", .bool (decide ((Settings.Transport t reg).1 = TRANSPORT_VPN t))),
        ("LocalHttpProxyPort", .int (Settings.LocalHttpProxyPort reg).1),
        ("LocalSocksProxyPort", .int (Settings.LocalSocksProxyPort reg).1),
        ("SkipUpstreamProxy", .bool (Settings.SkipUpstreamProxy reg).1),
        ("UpstreamProxyHostname", .string (Settings.UpstreamProxyHostname reg).1),
        ("UpstreamProxyPort", .int (Settings.UpstreamProxyPort reg).1),
        ("EgressRegion", .string (Settings.EgressRegion reg).1),
        ("defaults", .object [
          ("SplitTunnel", .int 0),
          ("VPN", .int 0),
          ("LocalHttpProxyPort", .int 0),
          ("LocalSocksProxyPort", .int 0),
          ("SkipUpstreamProxy", .int 0),
          ("UpstreamProxyHostname", .string ""),
          ("UpstreamProxyPort", .int 0),
          ("EgressRegion", .string "")])] := by
  unfold Settings.ToJson
  simp [Transport_eq, LocalHttpProxyPort_eq, LocalSocksProxyPort_eq, UpstreamProxyPort_eq,
    UpstreamProxyHostname_eq, SkipUpstreamProxy_eq, EgressRegion_eq, Settings.SplitTunnel,
    SPLIT_TUNNEL_DEFAULT, SKIP_UPSTREAM_PROXY_DEFAULT, NULL_PORT, UPSTREAM_PROXY_HOSTNAME_DEFAULT,
    EGRESS_REGION_DEFAULT]

theorem LocalHttpProxyPort_le (reg : Registry) :
    (Settings.LocalHttpProxyPort reg).1 ≤ MAX_PORT := by
  rw [LocalHttpProxyPort_eq]; exact clamp_le _ 0 (by decide)

theorem LocalSocksProxyPort_le (reg : Registry) :
    (Settings.LocalSocksProxyPort reg).1 ≤ MAX_PORT := by
  rw [LocalSocksProxyPort_eq]; exact clamp_le _ 0 (by decide)

theorem UpstreamProxyPort_le (reg : Registry) :
    (Settings.UpstreamProxyPort reg).1 ≤ MAX_PORT := by
  rw [UpstreamProxyPort_eq]; exact clamp_le _ 0 (by decide)

theorem port_le_maxUInt (n : Nat) (h : n ≤ MAX_PORT) : n ≤ JsonValue.maxUInt := by
  unfold MAX_PORT at h
  unfold JsonValue.maxUInt
  omega

/-- A payload whose member `key` is a natural number within `Json::UInt` range
extracts as that number. -/
theorem getUInt_nat (json : JsonValue) (key : String) (n : Nat)
    (hm : json.member? key = some (.int n)) (hn : n ≤ JsonValue.maxUInt) :
    json.getUInt key = .ok n := by
  cases json with
  | object members =>
    simp only [JsonValue.member?] at hm
    simp only [JsonValue.getUInt, JsonValue.get, hm, JsonValue.asUInt]
    have h2 : (0 : Int) ≤ n ∧ (n : Int) ≤ (JsonValue.maxUInt : Int) :=
      ⟨Int.ofNat_nonneg n, by exact_mod_cast hn⟩
    simp [h2]
  | _ => simp [JsonValue.member?] at hm

/-- A successful unsigned extraction returns the number the payload holds. -/
theorem getUInt_payload (json : JsonValue) (key : String) (n : Nat)
    (h : json.getUInt key = .ok n) : payloadUInt json key = some n := by
  have hr := getUInt_resolves json key n h
  unfold resolvesUInt at hr
  unfold payloadUInt
  cases hm : json.member? key with
  | none => rw [hm] at hr; simp only at hr; simp [hr]
  | some m => rw [hm] at hr; simp only at hr; simp [hr]

/-- A successful text extraction returns the string the payload holds. -/
theorem getString_payload (json : JsonValue) (key : String) (s : String)
    (h : json.getString key = .ok s) : payloadString json key = some s := by
  have hr := getString_resolves json key s h
  unfold resolvesString at hr
  unfold payloadString
  cases hm : json.member? key with
  | none => rw [hm] at hr; simp only at hr; simp [hr]
  | some m => rw [hm] at hr; simp only at hr; simp [hr]

/-! ## The claims -/

/-- C1: when the dialog is accepted (status 1) but its payload does not parse,
`Settings::Show` returns false and the registry after the call, export step
included, is the registry before the call. -/
theorem Show_unparseable_payload (x : Externals) (t : TransportNames) (reg : Registry)
    (result : String)
    (hdlg : x.ShowHTMLDlg (x.write (Settings.ToJson t reg).1) = (1, result))
    (hparse : x.parse result = none) :
    Settings.Show x t reg = (false, reg) ∧ (Settings.ToJson t reg).2 = reg := by
  refine ⟨?_, ToJson_snd t reg⟩
  have h := ToJson_snd t reg
  unfold Settings.Show
  rcases hj : Settings.ToJson t reg with ⟨config, r⟩
  rw [hj] at h hdlg
  simp only at h hdlg
  subst h
  simp [hdlg, hparse]

/-- Witness of C1 on the empty registry with a dialog returning an open brace. -/
theorem Show_unparseable_payload_witness :
    garbageDialog.parse "\x7b" = none ∧
    Settings.Show garbageDialog exampleNames Registry.empty = (false, Registry.empty) :=
  ⟨rfl, (Show_unparseable_payload garbageDialog exampleNames Registry.empty "\x7b" rfl rfl).1⟩

/-- C4: each of the three port getters returns the configured default, 0, when
the stored integer is greater than 65535, leaves the registry as it is, and
never returns a value above 65535. -/
theorem port_getters_clamp (reg : Registry) :
    (∀ n, ReadRegistryDwordValue HTTP_PROXY_PORT_NAME reg = some n → n > 65535 →
      Settings.LocalHttpProxyPort reg = (HTTP_PROXY_PORT_DEFAULT, reg)) ∧
    (∀ n, ReadRegistryDwordValue SOCKS_PROXY_PORT_NAME reg = some n → n > 65535 →
      Settings.LocalSocksProxyPort reg = (SOCKS_PROXY_PORT_DEFAULT, reg)) ∧
    (∀ n, ReadRegistryDwordValue UPSTREAM_PROXY_PORT_NAME reg = some n → n > 65535 →
      Settings.UpstreamProxyPort reg = (UPSTREAM_PROXY_PORT_DEFAULT, reg)) ∧
    HTTP_PROXY_PORT_DEFAULT = 0 ∧ SOCKS_PROXY_PORT_DEFAULT = 0 ∧
    UPSTREAM_PROXY_PORT_DEFAULT = 0 ∧
    (Settings.LocalHttpProxyPort reg).1 ≤ 65535 ∧
    (Settings.LocalSocksProxyPort reg).1 ≤ 65535 ∧
    (Settings.UpstreamProxyPort reg).1 ≤ 65535 := by
  refine ⟨?_, ?_, ?_, rfl, rfl, rfl, ?_, ?_, ?_⟩
  · intro n h hn
    simp only [ReadRegistryDwordValue] at h
    simp [Settings.LocalHttpProxyPort, h, MAX_PORT, hn]
  · intro n h hn
    simp only [ReadRegistryDwordValue] at h
    simp [Settings.LocalSocksProxyPort, h, MAX_PORT, hn]
  · intro n h hn
    simp only [ReadRegistryDwordValue] at h
    simp [Settings.UpstreamProxyPort, h, MAX_PORT, hn]
  · simp only [Settings.LocalHttpProxyPort, GetSettingDword_noWrite]
    split <;> simp_all [MAX_PORT, HTTP_PROXY_PORT_DEFAULT, NULL_PORT]
  · simp only [Settings.LocalSocksProxyPort, GetSettingDword_noWrite]
    split <;> simp_all [MAX_PORT, SOCKS_PROXY_PORT_DEFAULT, NULL_PORT]
  · simp only [Settings.UpstreamProxyPort, GetSettingDword_noWrite]
    split <;> simp_all [MAX_PORT, UPSTREAM_PROXY_PORT_DEFAULT, NULL_PORT]

/-- Witness of C4: stored ports 70000, 65536 and 4294967295 all read as 0. -/
theorem port_getters_clamp_witness :
    Settings.LocalHttpProxyPort regBigPorts = (0, regBigPorts) ∧
    Settings.LocalSocksProxyPort regBigPorts = (0, regBigPorts) ∧
    Settings.UpstreamProxyPort regBigPorts = (0, regBigPorts) :=
  ⟨(port_getters_clamp regBigPorts).1 70000 rfl (by decide),
   (port_getters_clamp regBigPorts).2.1 65536 rfl (by decide),
   (port_getters_clamp regBigPorts).2.2.1 4294967295 rfl (by decide)⟩

/-- C5: with two distinct transport names, `Settings::Transport` returns the VPN
name exactly when the string stored under the Transport key is the VPN name; for
any other stored string and for an absent key it returns the default name; the
result is always one of the two names. -/
theorem Transport_vpn_iff_stored (t : TransportNames) (reg : Registry)
    (hne : TRANSPORT_DEFAULT t ≠ TRANSPORT_VPN t) :
    ((Settings.Transport t reg).1 = TRANSPORT_VPN t ↔
      ReadRegistryStringValue TRANSPORT_NAME reg = some (TRANSPORT_VPN t)) ∧
    (ReadRegistryStringValue TRANSPORT_NAME reg ≠ some (TRANSPORT_VPN t) →
      (Settings.Transport t reg).1 = TRANSPORT_DEFAULT t) ∧
    ((Settings.Transport t reg).1 = TRANSPORT_VPN t ∨
      (Settings.Transport t reg).1 = TRANSPORT_DEFAULT t) := by
  simp only [Settings.Transport, GetSettingString_noWrite, ReadRegistryStringValue]
  cases hs : reg.strings TRANSPORT_NAME with
  | none => simp [hne]
  | some v =>
    by_cases hv : v = TRANSPORT_VPN t
    · simp [hv]
    · simp [hv, hne]

/-- Witness of C5: a registry holding the VPN name reads as VPN. -/
theorem Transport_vpn_iff_stored_witness :
    TRANSPORT_DEFAULT exampleNames ≠ TRANSPORT_VPN exampleNames ∧
    (Settings.Transport exampleNames regVpn).1 = TRANSPORT_VPN exampleNames :=
  ⟨by decide, (Transport_vpn_iff_stored exampleNames regVpn (by decide)).1.2 rfl⟩

/-- C8 (what the code does): `Settings::UpstreamProxyType` returns "https" for
every registry and leaves the registry as it found it; on the empty registry the
upstream-proxy-type key is still absent after the call, so the default is not
written. -/
theorem UpstreamProxyType_never_writes :
    (∀ reg : Registry, Settings.UpstreamProxyType reg = ("https", reg)) ∧
    ReadRegistryStringValue UPSTREAM_PROXY_TYPE_NAME Registry.empty = none ∧
    ReadRegistryStringValue UPSTREAM_PROXY_TYPE_NAME
      (Settings.UpstreamProxyType Registry.empty).2 = none := by
  refine ⟨?_, rfl, rfl⟩
  intro reg
  simp [Settings.UpstreamProxyType, UPSTREAM_PROXY_TYPE_DEFAULT]

/-- C9: `Settings::Initialize` is idempotent on the registry, and after it the
SkipBrowser and SkipProxySettings keys are present, holding the value stored
before if there was one and the default 0 otherwise. -/
theorem Initialize_idempotent (reg : Registry) :
    Settings.Initialize (Settings.Initialize reg) = Settings.Initialize reg ∧
    ReadRegistryDwordValue SKIP_BROWSER_NAME (Settings.Initialize reg) =
      some ((ReadRegistryDwordValue SKIP_BROWSER_NAME reg).getD 0) ∧
    ReadRegistryDwordValue SKIP_PROXY_SETTINGS_NAME (Settings.Initialize reg) =
      some ((ReadRegistryDwordValue SKIP_PROXY_SETTINGS_NAME reg).getD 0) := by
  have hk : SKIP_PROXY_SETTINGS_NAME ≠ SKIP_BROWSER_NAME := by decide
  have hk2 : SKIP_BROWSER_NAME ≠ SKIP_PROXY_SETTINGS_NAME := by decide
  cases hb : reg.dwords SKIP_BROWSER_NAME <;> cases hp : reg.dwords SKIP_PROXY_SETTINGS_NAME <;>
    simp [Settings.Initialize, GetSettingDword, ReadRegistryDwordValue, WriteRegistryDwordValue,
      hb, hp, hk, hk2, SKIP_BROWSER_DEFAULT, SKIP_PROXY_SETTINGS_DEFAULT]

/-- C2: if the dialog is accepted and returns exactly the serialized export, and
the reader turns that text back into the exported value, `Settings::Show`
returns false. -/
theorem Show_reimport_unchanged (x : Externals) (t : TransportNames) (reg : Registry)
    (hdlg : x.ShowHTMLDlg (x.write (Settings.ToJson t reg).1) =
      (1, x.write (Settings.ToJson t reg).1))
    (hparse : x.parse (x.write (Settings.ToJson t reg).1) = some (Settings.ToJson t reg).1) :
    (Settings.Show x t reg).1 = false := by
  rw [Show_accepted x t reg _ _ hdlg hparse]
  have hj := ToJson_fst t reg
  rw [tryBlock_all_ok t _ reg 0 (if (Settings.Transport t reg).1 = TRANSPORT_VPN t then 1 else 0)
    (Settings.LocalHttpProxyPort reg).1 (Settings.LocalSocksProxyPort reg).1
    (Settings.UpstreamProxyPort reg).1
    (if (Settings.SkipUpstreamProxy reg).1 then 1 else 0)
    (Settings.UpstreamProxyHostname reg).1 (Settings.EgressRegion reg).1
    (by rw [hj]; rfl)
    (by rw [hj]; simp [JsonValue.getUInt, JsonValue.get, List.lookup, JsonValue.asUInt])
    (by rw [hj]; exact getUInt_nat _ _ _ (by rfl) (port_le_maxUInt _ (LocalHttpProxyPort_le reg)))
    (by rw [hj]; exact getUInt_nat _ _ _ (by rfl) (port_le_maxUInt _ (LocalSocksProxyPort_le reg)))
    (by rw [hj]; rfl)
    (by rw [hj]; exact getUInt_nat _ _ _ (by rfl) (port_le_maxUInt _ (UpstreamProxyPort_le reg)))
    (by rw [hj]; simp [JsonValue.getUInt, JsonValue.get, List.lookup, JsonValue.asUInt])
    (by rw [hj]; rfl)]
  simp only [Settings.SplitTunnel, expandTransport, Transport_eq, SkipUpstreamProxy_eq]
  by_cases hv : (reg.strings TRANSPORT_NAME).getD (TRANSPORT_DEFAULT t) = TRANSPORT_VPN t <;>
    by_cases hs : (reg.dwords SKIP_UPSTREAM_PROXY_NAME).getD 0 = 0 <;>
    simp [hv, hs] <;> intro h <;> exact h.symm

/-- Witness of C2: the registry with a stored region survives an echoing dialog
with the changed flag false. -/
theorem Show_reimport_unchanged_witness :
    (Settings.Show (echoDialog (Settings.ToJson exampleNames regRegion).1) exampleNames
      regRegion).1 = false :=
  Show_reimport_unchanged (echoDialog (Settings.ToJson exampleNames regRegion).1) exampleNames
    regRegion rfl rfl

/-- C6: with two distinct transport names, a registry whose transport reads as
the default, and an accepted, parseable payload whose VPN member is `true` and
whose other fields extract, `Settings::Show` returns true and a following
`Settings::Transport` returns the VPN name. -/
theorem Show_vpn_selected (x : Externals) (t : TransportNames) (reg : Registry)
    (result : String) (json : JsonValue)
    (st hp sp up sk : Nat) (hn er : String)
    (hne : TRANSPORT_DEFAULT t ≠ TRANSPORT_VPN t)
    (hdef : (Settings.Transport t reg).1 = TRANSPORT_DEFAULT t)
    (hdlg : x.ShowHTMLDlg (x.write (Settings.ToJson t reg).1) = (1, result))
    (hparse : x.parse result = some json)
    (hvpn : json.member? "VPN" = some (.bool true))
    (h1 : json.getUInt "SplitTunnel" = .ok st)
    (h3 : json.getUInt "LocalHttpProxyPort" = .ok hp)
    (h4 : json.getUInt "LocalSocksProxyPort" = .ok sp)
    (h5 : json.getString "UpstreamProxyHostname" = .ok hn)
    (h6 : json.getUInt "UpstreamProxyPort" = .ok up)
    (h7 : json.getUInt "SkipUpstreamProxy" = .ok sk)
    (h8 : json.getString "EgressRegion" = .ok er) :
    (Settings.Show x t reg).1 = true ∧
    (Settings.Transport t (Settings.Show x t reg).2).1 = TRANSPORT_VPN t := by
  have h2 : json.getUInt "VPN" = .ok 1 := getUInt_bool json "VPN" true hvpn
  rw [Show_accepted x t reg result json hdlg hparse,
    tryBlock_all_ok t json reg st 1 hp sp up sk hn er h1 h2 h3 h4 h5 h6 h7 h8]
  constructor
  · have hx : expandTransport t 1 ≠ (Settings.Transport t reg).1 := by
      rw [hdef]
      simpa [expandTransport] using hne.symm
    simp [hx]
  · simp [Transport_eq, expandTransport, WriteRegistryDwordValue, WriteRegistryStringValue,
      SPLIT_TUNNEL_NAME, TRANSPORT_NAME, HTTP_PROXY_PORT_NAME,
      SOCKS_PROXY_PORT_NAME, UPSTREAM_PROXY_HOSTNAME_NAME, UPSTREAM_PROXY_PORT_NAME,
      SKIP_UPSTREAM_PROXY_NAME, EGRESS_REGION_NAME]

/-- Witness of C6: `payloadVpn` imported into the empty registry. -/
theorem Show_vpn_selected_witness :
    (Settings.Transport exampleNames Registry.empty).1 = TRANSPORT_DEFAULT exampleNames ∧
    (Settings.Show (acceptingDialog payloadVpn) exampleNames Registry.empty).1 = true ∧
    (Settings.Transport exampleNames
      (Settings.Show (acceptingDialog payloadVpn) exampleNames Registry.empty).2).1 =
        TRANSPORT_VPN exampleNames :=
  ⟨rfl, Show_vpn_selected (acceptingDialog payloadVpn) exampleNames Registry.empty "result"
    payloadVpn 0 8080 0 0 0 "" "CA" (by decide) rfl rfl rfl rfl rfl rfl rfl rfl rfl rfl rfl⟩

/-- C7: for a registry whose stored egress region is a non-empty string and an
accepted, parseable payload without an EgressRegion member whose other fields
extract, the field extracts as the empty string, `Settings::Show` returns true,
and afterwards the registry holds the empty string under the EgressRegion key,
which `Settings::EgressRegion` returns. -/
theorem Show_missing_region (x : Externals) (t : TransportNames) (reg : Registry)
    (result : String) (json : JsonValue) (region : String)
    (st vpn hp sp up sk : Nat) (hn : String)
    (hstored : ReadRegistryStringValue EGRESS_REGION_NAME reg = some region)
    (hregion : region ≠ "")
    (hdlg : x.ShowHTMLDlg (x.write (Settings.ToJson t reg).1) = (1, result))
    (hparse : x.parse result = some json)
    (hmissing : json.member? "EgressRegion" = none)
    (h1 : json.getUInt "SplitTunnel" = .ok st)
    (h2 : json.getUInt "VPN" = .ok vpn)
    (h3 : json.getUInt "LocalHttpProxyPort" = .ok hp)
    (h4 : json.getUInt "LocalSocksProxyPort" = .ok sp)
    (h5 : json.getString "UpstreamProxyHostname" = .ok hn)
    (h6 : json.getUInt "UpstreamProxyPort" = .ok up)
    (h7 : json.getUInt "SkipUpstreamProxy" = .ok sk) :
    json.getString "EgressRegion" = .ok "" ∧
    (Settings.Show x t reg).1 = true ∧
    ReadRegistryStringValue EGRESS_REGION_NAME (Settings.Show x t reg).2 = some "" ∧
    (Settings.EgressRegion (Settings.Show x t reg).2).1 = "" := by
  have h8 : json.getString "EgressRegion" = .ok "" :=
    getString_missing json "EgressRegion" "SplitTunnel" st h1 hmissing
  refine ⟨h8, ?_⟩
  rw [Show_accepted x t reg result json hdlg hparse,
    tryBlock_all_ok t json reg st vpn hp sp up sk hn "" h1 h2 h3 h4 h5 h6 h7 h8]
  simp only [ReadRegistryStringValue] at hstored
  refine ⟨?_, ?_, ?_⟩
  · have hx : ("" != (Settings.EgressRegion reg).1) = true := by
      simp [EgressRegion_eq, hstored, Ne.symm hregion]
    simp [hx]
  · simp [ReadRegistryStringValue, WriteRegistryStringValue]
  · simp [EgressRegion_eq, WriteRegistryStringValue]

/-- Witness of C7: `payloadNoRegion` imported into a registry storing "US". -/
theorem Show_missing_region_witness :
    (Settings.Show (acceptingDialog payloadNoRegion) exampleNames regRegion).1 = true ∧
    ReadRegistryStringValue EGRESS_REGION_NAME
      (Settings.Show (acceptingDialog payloadNoRegion) exampleNames regRegion).2 = some "" :=
  have h := Show_missing_region (acceptingDialog payloadNoRegion) exampleNames regRegion
    "result" payloadNoRegion "US" 0 0 0 0 0 0 "" rfl (by decide) rfl rfl rfl rfl rfl rfl rfl
    rfl rfl rfl
  ⟨h.2.1, h.2.2.1⟩

/-- C10: for an accepted, parseable payload in which the extraction of some field
raises, `Settings::Show` still returns: with the processing order split as the
fields before the first failing one, the failing field, and the fields after it,
the returned flag is the OR of the changed flags of the fields before (payload
value against the getter before the call), each field before has a payload
value, which is what its extraction returned and what the registry holds for it
afterwards, and the failing field and all later fields hold what they held
before the call. -/
theorem Show_partial_import (x : Externals) (t : TransportNames) (reg : Registry)
    (result : String) (json : JsonValue)
    (before after : List Field) (failing : Field)
    (hdlg : x.ShowHTMLDlg (x.write (Settings.ToJson t reg).1) = (1, result))
    (hparse : x.parse result = some json)
    (horder : Field.order = before ++ failing :: after)
    (hok : ∀ f ∈ before, ∃ v, f.resolve t json = .ok v)
    (hfail : ∃ err, failing.resolve t json = .error err) :
    (Settings.Show x t reg).1 = before.any (fun f => f.changed t json reg) ∧
    (∀ f ∈ before, ∃ v, f.payloadValue t json = some v ∧ f.resolve t json = .ok v ∧
      f.stored (Settings.Show x t reg).2 = some v) ∧
    (∀ f ∈ failing :: after, f.stored (Settings.Show x t reg).2 = f.stored reg) := by
  rw [Show_accepted x t reg result json hdlg hparse]
  obtain ⟨err, hfail⟩ := hfail
  rcases before with
    _ | ⟨b1, _ | ⟨b2, _ | ⟨b3, _ | ⟨b4, _ | ⟨b5, _ | ⟨b6, _ | ⟨b7, _ | ⟨b8, rest⟩⟩⟩⟩⟩⟩⟩⟩ <;>
    simp only [Field.order, List.cons_append, List.nil_append, List.cons.injEq] at horder
  · obtain ⟨rfl, rfl⟩ := horder
    rcases h1 : json.getUInt "SplitTunnel" with e | v
    swap
    · simp [Field.resolve, h1] at hfail
    rw [tryBlock_fail_1 t json reg  e h1]
    simp [h1, Bool.or_assoc, Field.changed, Field.payloadValue, Field.differs,
      Field.resolve, Field.stored, ReadRegistryDwordValue, ReadRegistryStringValue,
      WriteRegistryDwordValue, WriteRegistryStringValue, SPLIT_TUNNEL_NAME, TRANSPORT_NAME,
      HTTP_PROXY_PORT_NAME, SOCKS_PROXY_PORT_NAME, UPSTREAM_PROXY_HOSTNAME_NAME,
      UPSTREAM_PROXY_PORT_NAME, SKIP_UPSTREAM_PROXY_NAME, EGRESS_REGION_NAME]
  · obtain ⟨rfl, rfl, rfl⟩ := horder
    rcases h1 : json.getUInt "SplitTunnel" with e | st
    · obtain ⟨v, hv⟩ := hok .SplitTunnel (by simp)
      simp [Field.resolve, h1] at hv
    have p1 := getUInt_payload json "SplitTunnel" st h1
    rcases h2 : json.getUInt "VPN" with e | v
    swap
    · simp [Field.resolve, h2] at hfail
    rw [tryBlock_fail_2 t json reg st e h1 h2]
    simp [h1, h2, p1, Bool.or_assoc, Field.changed, Field.payloadValue, Field.differs,
      Field.resolve, Field.stored, ReadRegistryDwordValue, ReadRegistryStringValue,
      WriteRegistryDwordValue, WriteRegistryStringValue, SPLIT_TUNNEL_NAME, TRANSPORT_NAME,
      HTTP_PROXY_PORT_NAME, SOCKS_PROXY_PORT_NAME, UPSTREAM_PROXY_HOSTNAME_NAME,
      UPSTREAM_PROXY_PORT_NAME, SKIP_UPSTREAM_PROXY_NAME, EGRESS_REGION_NAME]
  · obtain ⟨rfl, rfl, rfl, rfl⟩ := horder
    rcases h1 : json.getUInt "SplitTunnel" with e | st
    · obtain ⟨v, hv⟩ := hok .SplitTunnel (by simp)
      simp [Field.resolve, h1] at hv
    have p1 := getUInt_payload json "SplitTunnel" st h1
    rcases h2 : json.getUInt "VPN" with e | vpn
    · obtain ⟨v, hv⟩ := hok .VPN (by simp)
      simp [Field.resolve, h2] at hv
    have p2 := getUInt_payload json "VPN" vpn h2
    rcases h3 : json.getUInt "LocalHttpProxyPort" with e | v
    swap
    · simp [Field.resolve, h3] at hfail
    rw [tryBlock_fail_3 t json reg st vpn e h1 h2 h3]
    simp [h1, h2, h3, p1, p2, Bool.or_assoc, Field.changed, Field.payloadValue, Field.differs,
      Field.resolve, Field.stored, ReadRegistryDwordValue, ReadRegistryStringValue,
      WriteRegistryDwordValue, WriteRegistryStringValue, SPLIT_TUNNEL_NAME, TRANSPORT_NAME,
      HTTP_PROXY_PORT_NAME, SOCKS_PROXY_PORT_NAME, UPSTREAM_PROXY_HOSTNAME_NAME,
      UPSTREAM_PROXY_PORT_NAME, SKIP_UPSTREAM_PROXY_NAME, EGRESS_REGION_NAME]
  · obtain ⟨rfl, rfl, rfl, rfl, rfl⟩ := horder
    rcases h1 : json.getUInt "SplitTunnel" with e | st
    · obtain ⟨v, hv⟩ := hok .SplitTunnel (by simp)
      simp [Field.resolve, h1] at hv
    have p1 := getUInt_payload json "SplitTunnel" st h1
    rcases h2 : json.getUInt "VPN" with e | vpn
    · obtain ⟨v, hv⟩ := hok .VPN (by simp)
      simp [Field.resolve, h2] at hv
    have p2 := getUInt_payload json "VPN" vpn h2
    rcases h3 : json.getUInt "LocalHttpProxyPort" with e | hp
    · obtain ⟨v, hv⟩ := hok .LocalHttpProxyPort (by simp)
      simp [Field.resolve, h3] at hv
    have p3 := getUInt_payload json "LocalHttpProxyPort" hp h3
    rcases h4 : json.getUInt "LocalSocksProxyPort" with e | v
    swap
    · simp [Field.resolve, h4] at hfail
    rw [tryBlock_fail_4 t json reg st vpn hp e h1 h2 h3 h4]
    simp [h1, h2, h3, h4, p1, p2, p3, Bool.or_assoc, Field.changed, Field.payloadValue, Field.differs,
      Field.resolve, Field.stored, ReadRegistryDwordValue, ReadRegistryStringValue,
      WriteRegistryDwordValue, WriteRegistryStringValue, SPLIT_TUNNEL_NAME, TRANSPORT_NAME,
      HTTP_PROXY_PORT_NAME, SOCKS_PROXY_PORT_NAME, UPSTREAM_PROXY_HOSTNAME_NAME,
      UPSTREAM_PROXY_PORT_NAME, SKIP_UPSTREAM_PROXY_NAME, EGRESS_REGION_NAME]
  · obtain ⟨rfl, rfl, rfl, rfl, rfl, rfl⟩ := horder
    rcases h1 : json.getUInt "SplitTunnel" with e | st
    · obtain ⟨v, hv⟩ := hok .SplitTunnel (by simp)
      simp [Field.resolve, h1] at hv
    have p1 := getUInt_payload json "SplitTunnel" st h1
    rcases h2 : json.getUInt "VPN" with e | vpn
    · obtain ⟨v, hv⟩ := hok .VPN (by simp)
      simp [Field.resolve, h2] at hv
    have p2 := getUInt_payload json "VPN" vpn h2
    rcases h3 : json.getUInt "LocalHttpProxyPort" with e | hp
    · obtain ⟨v, hv⟩ := hok .LocalHttpProxyPort (by simp)
      simp [Field.resolve, h3] at hv
    have p3 := getUInt_payload json "LocalHttpProxyPort" hp h3
    rcases h4 : json.getUInt "LocalSocksProxyPort" with e | sp
    · obtain ⟨v, hv⟩ := hok .LocalSocksProxyPort (by simp)
      simp [Field.resolve, h4] at hv
    have p4 := getUInt_payload json "LocalSocksProxyPort" sp h4
    rcases h5 : json.getString "UpstreamProxyHostname" with e | v
    swap
    · simp [Field.resolve, h5] at hfail
    rw [tryBlock_fail_5 t json reg st vpn hp sp e h1 h2 h3 h4 h5]
    simp [h1, h2, h3, h4, h5, p1, p2, p3, p4, Bool.or_assoc, Field.changed, Field.payloadValue, Field.differs,
      Field.resolve, Field.stored, ReadRegistryDwordValue, ReadRegistryStringValue,
      WriteRegistryDwordValue, WriteRegistryStringValue, SPLIT_TUNNEL_NAME, TRANSPORT_NAME,
      HTTP_PROXY_PORT_NAME, SOCKS_PROXY_PORT_NAME, UPSTREAM_PROXY_HOSTNAME_NAME,
      UPSTREAM_PROXY_PORT_NAME, SKIP_UPSTREAM_PROXY_NAME, EGRESS_REGION_NAME]
  · obtain ⟨rfl, rfl, rfl, rfl, rfl, rfl, rfl⟩ := horder
    rcases h1 : json.getUInt "SplitTunnel" with e | st
    · obtain ⟨v, hv⟩ := hok .SplitTunnel (by simp)
      simp [Field.resolve, h1] at hv
    have p1 := getUInt_payload json "SplitTunnel" st h1
    rcases h2 : json.getUInt "VPN" with e | vpn
    · obtain ⟨v, hv⟩ := hok .VPN (by simp)
      simp [Field.resolve, h2] at hv
    have p2 := getUInt_payload json "VPN" vpn h2
    rcases h3 : json.getUInt "LocalHttpProxyPort" with e | hp
    · obtain ⟨v, hv⟩ := hok .LocalHttpProxyPort (by simp)
      simp [Field.resolve, h3] at hv
    have p3 := getUInt_payload json "LocalHttpProxyPort" hp h3
    rcases h4 : json.getUInt "LocalSocksProxyPort" with e | sp
    · obtain ⟨v, hv⟩ := hok .LocalSocksProxyPort (by simp)
      simp [Field.resolve, h4] at hv
    have p4 := getUInt_payload json "LocalSocksProxyPort" sp h4
    rcases h5 : json.getString "UpstreamProxyHostname" with e | hn
    · obtain ⟨v, hv⟩ := hok .UpstreamProxyHostname (by simp)
      simp [Field.resolve, h5] at hv
    have p5 := getString_payload json "UpstreamProxyHostname" hn h5
    rcases h6 : json.getUInt "UpstreamProxyPort" with e | v
    swap
    · simp [Field.resolve, h6] at hfail
    rw [tryBlock_fail_6 t json reg st vpn hp sp hn e h1 h2 h3 h4 h5 h6]
    simp [h1, h2, h3, h4, h5, h6, p1, p2, p3, p4, p5, Bool.or_assoc, Field.changed, Field.payloadValue, Field.differs,
      Field.resolve, Field.stored, ReadRegistryDwordValue, ReadRegistryStringValue,
      WriteRegistryDwordValue, WriteRegistryStringValue, SPLIT_TUNNEL_NAME, TRANSPORT_NAME,
      HTTP_PROXY_PORT_NAME, SOCKS_PROXY_PORT_NAME, UPSTREAM_PROXY_HOSTNAME_NAME,
      UPSTREAM_PROXY_PORT_NAME, SKIP_UPSTREAM_PROXY_NAME, EGRESS_REGION_NAME]
  · obtain ⟨rfl, rfl, rfl, rfl, rfl, rfl, rfl, rfl⟩ := horder
    rcases h1 : json.getUInt "SplitTunnel" with e | st
    · obtain ⟨v, hv⟩ := hok .SplitTunnel (by simp)
      simp [Field.resolve, h1] at hv
    have p1 := getUInt_payload json "SplitTunnel" st h1
    rcases h2 : json.getUInt "VPN" with e | vpn
    · obtain ⟨v, hv⟩ := hok .VPN (by simp)
      simp [Field.resolve, h2] at hv
    have p2 := getUInt_payload json "VPN" vpn h2
    rcases h3 : json.getUInt "LocalHttpProxyPort" with e | hp
    · obtain ⟨v, hv⟩ := hok .LocalHttpProxyPort (by simp)
      simp [Field.resolve, h3] at hv
    have p3 := getUInt_payload json "LocalHttpProxyPort" hp h3
    rcases h4 : json.getUInt "LocalSocksProxyPort" with e | sp
    · obtain ⟨v, hv⟩ := hok .LocalSocksProxyPort (by simp)
      simp [Field.resolve, h4] at hv
    have p4 := getUInt_payload json "LocalSocksProxyPort" sp h4
    rcases h5 : json.getString "UpstreamProxyHostname" with e | hn
    · obtain ⟨v, hv⟩ := hok .UpstreamProxyHostname (by simp)
      simp [Field.resolve, h5] at hv
    have p5 := getString_payload json "UpstreamProxyHostname" hn h5
    rcases h6 : json.getUInt "UpstreamProxyPort" with e | up
    · obtain ⟨v, hv⟩ := hok .UpstreamProxyPort (by simp)
      simp [Field.resolve, h6] at hv
    have p6 := getUInt_payload json "UpstreamProxyPort" up h6
    rcases h7 : json.getUInt "SkipUpstreamProxy" with e | v
    swap
    · simp [Field.resolve, h7] at hfail
    rw [tryBlock_fail_7 t json reg st vpn hp sp hn up e h1 h2 h3 h4 h5 h6 h7]
    simp [h1, h2, h3, h4, h5, h6, h7, p1, p2, p3, p4, p5, p6, Bool.or_assoc, Field.changed, Field.payloadValue, Field.differs,
      Field.resolve, Field.stored, ReadRegistryDwordValue, ReadRegistryStringValue,
      WriteRegistryDwordValue, WriteRegistryStringValue, SPLIT_TUNNEL_NAME, TRANSPORT_NAME,
      HTTP_PROXY_PORT_NAME, SOCKS_PROXY_PORT_NAME, UPSTREAM_PROXY_HOSTNAME_NAME,
      UPSTREAM_PROXY_PORT_NAME, SKIP_UPSTREAM_PROXY_NAME, EGRESS_REGION_NAME]
  · obtain ⟨rfl, rfl, rfl, rfl, rfl, rfl, rfl, rfl, rfl⟩ := horder
    rcases h1 : json.getUInt "SplitTunnel" with e | st
    · obtain ⟨v, hv⟩ := hok .SplitTunnel (by simp)
      simp [Field.resolve, h1] at hv
    have p1 := getUInt_payload json "SplitTunnel" st h1
    rcases h2 : json.getUInt "VPN" with e | vpn
    · obtain ⟨v, hv⟩ := hok .VPN (by simp)
      simp [Field.resolve, h2] at hv
    have p2 := getUInt_payload json "VPN" vpn h2
    rcases h3 : json.getUInt "LocalHttpProxyPort" with e | hp
    · obtain ⟨v, hv⟩ := hok .LocalHttpProxyPort (by simp)
      simp [Field.resolve, h3] at hv
    have p3 := getUInt_payload json "LocalHttpProxyPort" hp h3
    rcases h4 : json.getUInt "LocalSocksProxyPort" with e | sp
    · obtain ⟨v, hv⟩ := hok .LocalSocksProxyPort (by simp)
      simp [Field.resolve, h4] at hv
    have p4 := getUInt_payload json "LocalSocksProxyPort" sp h4
    rcases h5 : json.getString "UpstreamProxyHostname" with e | hn
    · obtain ⟨v, hv⟩ := hok .UpstreamProxyHostname (by simp)
      simp [Field.resolve, h5] at hv
    have p5 := getString_payload json "UpstreamProxyHostname" hn h5
    rcases h6 : json.getUInt "UpstreamProxyPort" with e | up
    · obtain ⟨v, hv⟩ := hok .UpstreamProxyPort (by simp)
      simp [Field.resolve, h6] at hv
    have p6 := getUInt_payload json "UpstreamProxyPort" up h6
    rcases h7 : json.getUInt "SkipUpstreamProxy" with e | sk
    · obtain ⟨v, hv⟩ := hok .SkipUpstreamProxy (by simp)
      simp [Field.resolve, h7] at hv
    have p7 := getUInt_payload json "SkipUpstreamProxy" sk h7
    rcases h8 : json.getString "EgressRegion" with e | v
    swap
    · simp [Field.resolve, h8] at hfail
    rw [tryBlock_fail_8 t json reg st vpn hp sp hn up sk e h1 h2 h3 h4 h5 h6 h7 h8]
    simp [h1, h2, h3, h4, h5, h6, h7, h8, p1, p2, p3, p4, p5, p6, p7, Bool.or_assoc, Field.changed, Field.payloadValue, Field.differs,
      Field.resolve, Field.stored, ReadRegistryDwordValue, ReadRegistryStringValue,
      WriteRegistryDwordValue, WriteRegistryStringValue, SPLIT_TUNNEL_NAME, TRANSPORT_NAME,
      HTTP_PROXY_PORT_NAME, SOCKS_PROXY_PORT_NAME, UPSTREAM_PROXY_HOSTNAME_NAME,
      UPSTREAM_PROXY_PORT_NAME, SKIP_UPSTREAM_PROXY_NAME, EGRESS_REGION_NAME]
  · exact absurd horder (by simp)

/-- Witness of C10: in `payloadBadUpstreamPort` the upstream proxy port is a
string, so the import into the empty registry stops at the sixth field: the flag
is true, the HTTP port 8080 and the hostname "proxy.example" of the payload are
stored, and the egress region, present in the payload, is not. -/
theorem Show_partial_import_witness :
    (∃ err, Field.resolve exampleNames payloadBadUpstreamPort .UpstreamProxyPort =
      .error err) ∧
    (Settings.Show (acceptingDialog payloadBadUpstreamPort) exampleNames
      Registry.empty).1 = true ∧
    Field.stored (Settings.Show (acceptingDialog payloadBadUpstreamPort) exampleNames
      Registry.empty).2 .LocalHttpProxyPort = some (.dword 8080) ∧
    Field.stored (Settings.Show (acceptingDialog payloadBadUpstreamPort) exampleNames
      Registry.empty).2 .UpstreamProxyHostname = some (.text "proxy.example") ∧
    Field.stored (Settings.Show (acceptingDialog payloadBadUpstreamPort) exampleNames
      Registry.empty).2 .EgressRegion = none := by
  have h := Show_partial_import (acceptingDialog payloadBadUpstreamPort) exampleNames
    Registry.empty "result" payloadBadUpstreamPort
    [.SplitTunnel, .VPN, .LocalHttpProxyPort, .LocalSocksProxyPort, .UpstreamProxyHostname]
    [.SkipUpstreamProxy, .EgressRegion] .UpstreamProxyPort rfl rfl rfl
    (by
      intro f hf
      simp only [List.mem_cons, List.mem_singleton, List.not_mem_nil, or_false] at hf
      rcases hf with rfl | rfl | rfl | rfl | rfl <;> exact ⟨_, rfl⟩)
    ⟨_, rfl⟩
  refine ⟨⟨_, rfl⟩, h.1.trans rfl, ?_, ?_, ?_⟩
  · obtain ⟨v, hv, _, hs⟩ := h.2.1 .LocalHttpProxyPort (by simp)
    have hv2 : Field.payloadValue exampleNames payloadBadUpstreamPort .LocalHttpProxyPort =
        some (.dword 8080) := rfl
    rw [hv2] at hv
    cases hv
    exact hs
  · obtain ⟨v, hv, _, hs⟩ := h.2.1 .UpstreamProxyHostname (by simp)
    have hv2 : Field.payloadValue exampleNames payloadBadUpstreamPort
        .UpstreamProxyHostname = some (.text "proxy.example") := rfl
    rw [hv2] at hv
    cases hv
    exact hs
  · exact (h.2.2 .EgressRegion (by simp)).trans rfl

end Psiphon
